import Mathlib

/-!
Verification of the trace-context core of this repository: the W3C
trace-context wire propagator (src/propagators/trace_context.go) and the
parent-resolution algorithm (src/internal/trace/parent/parent.go).

The propagator and parent-resolution logic are translated directly from the
Go source. The identifier model (TraceID, SpanID, flags, SpanReference,
validity, hex construction), the ambient context and the carrier are types
of the otel package that is not part of the source slice; they are modelled
from the specification (sections 3, 4.1 and 6), with byte values as natural
numbers below 256 and identifiers as byte lists.
-/

/-- One hex digit as a character giving its value, as in Go's encoding/hex
(accepts 0-9, a-f and A-F). -/
def hexDigitVal (c : Char) : Option Nat :=
  if '0' ≤ c ∧ c ≤ '9' then some (c.toNat - '0'.toNat)
  else if 'a' ≤ c ∧ c ≤ 'f' then some (c.toNat - 'a'.toNat + 10)
  else if 'A' ≤ c ∧ c ≤ 'F' then some (c.toNat - 'A'.toNat + 10)
  else none

/-- Go's hex.DecodeString: pairs of hex digits to bytes; fails on odd
length or on a non-hex character. -/
def hexDecode : List Char → Option (List Nat)
  | [] => some []
  | [_] => none
  | c1 :: c2 :: rest =>
    match hexDigitVal c1, hexDigitVal c2, hexDecode rest with
    | some hi, some lo, some bs => some ((16 * hi + lo) :: bs)
    | _, _, _ => none

/-- The lowercase hex digit for a value below 16, as produced by Go's
lowercase hex formatting. -/
def toHexDigit (d : Nat) : Char :=
  if d < 10 then Char.ofNat (48 + d) else Char.ofNat (87 + d)

/-- Two lowercase hex digits of one byte (Go formatting with %.2x, and
each byte of hex.EncodeToString). -/
def hexEncodeByte (b : Nat) : List Char :=
  [toHexDigit (b / 16), toHexDigit (b % 16)]

/-- Lowercase hex rendering of a byte list (Go's hex.EncodeToString,
used by the String method of the identifier types). -/
def hexEncode : List Nat → List Char
  | [] => []
  | b :: bs => hexEncodeByte b ++ hexEncode bs

/-- Modelled from the spec: the sampled bit, bit 0 of the one-byte trace
flags (otel.FlagsSampled, not under src). -/
def FlagsSampled : Nat := 1

/-- Modelled from the spec: a trace identifier is invalid iff all of its
16 bytes are zero (otel.TraceID.IsValid, not under src). The identifier is
a byte list; validity is having some non-zero byte. -/
def TraceIDIsValid (id : List Nat) : Bool :=
  id.any (fun b => b != 0)

/-- Modelled from the spec: a span identifier is invalid iff all of its
8 bytes are zero (otel.SpanID.IsValid, not under src). -/
def SpanIDIsValid (id : List Nat) : Bool :=
  id.any (fun b => b != 0)

/-- Modelled from the spec: the composite span reference
{TraceID, SpanID, TraceFlags} (otel.SpanReference, not under src).
TraceID is 16 bytes, SpanID 8 bytes, TraceFlags one byte. -/
structure SpanReference where
  TraceID : List Nat
  SpanID : List Nat
  TraceFlags : Nat
deriving Repr, DecidableEq

/-- The zero value otel.SpanReference{}: all-zero identifiers, zero flags. -/
def SpanReference.empty : SpanReference :=
  { TraceID := List.replicate 16 0, SpanID := List.replicate 8 0, TraceFlags := 0 }

/-- Modelled from the spec: a span reference is valid iff both its trace
identifier and its span identifier are valid (otel.SpanReference.IsValid,
not under src). -/
def SpanReference.IsValid (sc : SpanReference) : Bool :=
  TraceIDIsValid sc.TraceID && SpanIDIsValid sc.SpanID

/-- Modelled from the spec: construction of a TraceID from hex text
(otel.TraceIDFromHex, not under src). Fails on wrong fixed width
(32 hex chars), odd length, or non-hex characters. -/
def TraceIDFromHex (s : String) : Option (List Nat) :=
  if s.length ≠ 32 then none else hexDecode s.data

/-- Modelled from the spec: construction of a SpanID from hex text
(otel.SpanIDFromHex, not under src). Fails on wrong fixed width
(16 hex chars), odd length, or non-hex characters. -/
def SpanIDFromHex (s : String) : Option (List Nat) :=
  if s.length ≠ 16 then none else hexDecode s.data

/-- Modelled from the spec: the ambient context, an immutable environment
carrying at most one current local span reference, at most one remote span
reference, and the opaque tracestate pass-through value. -/
structure Context where
  currentSpan : Option SpanReference
  remoteSpan : Option SpanReference
  tracestate : Option String
deriving Repr, DecidableEq

/-- A context holding nothing. -/
def Context.empty : Context :=
  { currentSpan := none, remoteSpan := none, tracestate := none }

/-- Modelled from the spec: otel.SpanFromContext(ctx).SpanReference() —
the current span's reference, the zero reference when no span is set. -/
def SpanFromContextReference (ctx : Context) : SpanReference :=
  ctx.currentSpan.getD SpanReference.empty

/-- Modelled from the spec: otel.RemoteSpanReferenceFromContext — the
remote span reference, the zero reference when none is set. -/
def RemoteSpanReferenceFromContext (ctx : Context) : SpanReference :=
  ctx.remoteSpan.getD SpanReference.empty

/-- Modelled from the spec: otel.ContextWithRemoteSpanReference — derive a
context with the remote span reference slot set. -/
def ContextWithRemoteSpanReference (ctx : Context) (sc : SpanReference) : Context :=
  { ctx with remoteSpan := some sc }

/-- Modelled from the spec: the text map carrier restricted to the two
keys this propagator touches; Get of an absent key is the empty string. -/
structure Carrier where
  traceparent : String
  tracestate : String
deriving Repr, DecidableEq

/-- supportedVersion of trace_context.go. -/
def supportedVersion : Nat := 0

/-- maxVersion of trace_context.go. -/
def maxVersion : Nat := 254

/-- The character class [0-9a-f] of traceCtxRegExp (trace_context.go
line 50): only lowercase hex digits. -/
def isLowHex (c : Char) : Bool :=
  decide (('0' ≤ c ∧ c ≤ '9') ∨ ('a' ≤ c ∧ c ≤ 'f'))

/-- A fixed-width run of characters from the regexp class [0-9a-f]:
the submatch and the remaining characters, or none when the next n
characters are not all lowercase hex. -/
def takeFixedHex (n : Nat) (cs : List Char) : Option (List Char × List Char) :=
  if (cs.take n).length = n ∧ (cs.take n).all isLowHex = true then
    some (cs.take n, cs.drop n)
  else none

/-- A literal dash in the regular expression. -/
def dropDash : List Char → Option (List Char)
  | c :: rest => if c = '-' then some rest else none
  | [] => none

/-- The optional trailing group (?:-.*)?$ of traceCtxRegExp: either the
end of the text, or a dash followed by any characters other than a
newline (Go's dot does not match a newline). -/
def tailOK : List Char → Bool
  | [] => true
  | '-' :: rest => rest.all (fun c => c != '\n')
  | _ => false

/-- The anchored match of traceCtxRegExp (trace_context.go line 50):
version(2 hex)-traceID(32 hex)-spanID(16 hex)-traceFlags(2 hex) with an
optional dash-prefixed tail; returns the four captured groups. -/
def matchParts (cs : List Char) :
    Option (List Char × List Char × List Char × List Char) :=
  match takeFixedHex 2 cs with
  | none => none
  | some (v, cs1) =>
    match dropDash cs1 with
    | none => none
    | some cs2 =>
      match takeFixedHex 32 cs2 with
      | none => none
      | some (t, cs3) =>
        match dropDash cs3 with
        | none => none
        | some cs4 =>
          match takeFixedHex 16 cs4 with
          | none => none
          | some (s, cs5) =>
            match dropDash cs5 with
            | none => none
            | some cs6 =>
              match takeFixedHex 2 cs6 with
              | none => none
              | some (f, cs7) =>
                if tailOK cs7 then some (v, t, s, f) else none

/-- Go's traceCtxRegExp.FindStringSubmatch: nil when the expression does
not match; otherwise the full match (the whole string, as the expression
is anchored at both ends) followed by the four captured groups — the
optional trailing group is non-capturing, so a successful match always
yields exactly five entries. -/
def traceCtxFindSubmatch (h : String) : Option (List String) :=
  match matchParts h.data with
  | none => none
  | some (v, t, s, f) =>
    some [h, String.mk v, String.mk t, String.mk s, String.mk f]

namespace TraceContext

/-- TraceContext.extract of trace_context.go (lines 85-151): parse and
validate the traceparent header, returning the zero span reference on any
failure. -/
def extract (carrier : Carrier) : SpanReference :=
  if carrier.traceparent = "" then SpanReference.empty
  else
    match traceCtxFindSubmatch carrier.traceparent with
    | none => SpanReference.empty
    | some ms =>
      if ms.length < 5 then SpanReference.empty
      else if (ms.getD 1 "").length ≠ 2 then SpanReference.empty
      else
        match hexDecode (ms.getD 1 "").data with
        | none => SpanReference.empty
        | some ver =>
          if ver.getD 0 0 > maxVersion then SpanReference.empty
          else if ver.getD 0 0 = 0 ∧ ms.length ≠ 5 then SpanReference.empty
          else if (ms.getD 2 "").length ≠ 32 then SpanReference.empty
          else
            match TraceIDFromHex (String.mk ((ms.getD 2 "").data.take 32)) with
            | none => SpanReference.empty
            | some traceID =>
              if (ms.getD 3 "").length ≠ 16 then SpanReference.empty
              else
                match SpanIDFromHex (ms.getD 3 "") with
                | none => SpanReference.empty
                | some spanID =>
                  if (ms.getD 4 "").length ≠ 2 then SpanReference.empty
                  else
                    match hexDecode (ms.getD 4 "").data with
                    | none => SpanReference.empty
                    | some opts =>
                      if opts.length < 1 ∨ (ver.getD 0 0 = 0 ∧ opts.getD 0 0 > 2) then
                        SpanReference.empty
                      else
                        let sc : SpanReference :=
                          { TraceID := traceID, SpanID := spanID,
                            TraceFlags := opts.getD 0 0 &&& FlagsSampled }
                        if ¬ sc.IsValid then SpanReference.empty else sc

/-- TraceContext.Extract of trace_context.go (lines 72-83): store a
non-empty tracestate verbatim, then set the extracted reference as the
remote span reference when it is valid. -/
def Extract (ctx : Context) (carrier : Carrier) : Context :=
  let state := carrier.tracestate
  let ctx1 := if state ≠ "" then { ctx with tracestate := some state } else ctx
  let sc := extract carrier
  if ¬ sc.IsValid then ctx1
  else ContextWithRemoteSpanReference ctx1 sc

/-- TraceContext.Inject of trace_context.go (lines 53-69): write the
stored tracestate, then — when the current span reference is valid — the
traceparent header, formatted %.2x-%s-%s-%.2x from the supported version,
the two identifiers in lowercase hex, and the flags masked to the sampled
bit. -/
def Inject (ctx : Context) (carrier : Carrier) : Carrier :=
  let carrier1 :=
    match ctx.tracestate with
    | some state => { carrier with tracestate := state }
    | none => carrier
  let sc := SpanFromContextReference ctx
  if ¬ sc.IsValid then carrier1
  else
    { carrier1 with
      traceparent := String.mk
        (hexEncodeByte supportedVersion ++
          '-' :: (hexEncode sc.TraceID ++
            '-' :: (hexEncode sc.SpanID ++
              '-' :: hexEncodeByte (sc.TraceFlags &&& FlagsSampled)))) }

end TraceContext

/-- otel.Link of the otel package (modelled from the spec): a span
reference with an ordered attribute list; label.String key-value pairs are
string pairs. -/
structure Link where
  SpanReference : SpanReference
  Attributes : List (String × String)
deriving Repr, DecidableEq

/-- addLinkIfValid of parent.go (lines 43-53). -/
def addLinkIfValid (links : List Link) (sc : SpanReference) (kind : String) : List Link :=
  if ¬ sc.IsValid then links
  else links ++ [{ SpanReference := sc, Attributes := [("ignored-on-demand", kind)] }]

/-- GetSpanReferenceAndLinks of parent.go (lines 24-41). -/
def GetSpanReferenceAndLinks (ctx : Context) (ignoreContext : Bool) :
    SpanReference × Bool × List Link :=
  let lsctx := SpanFromContextReference ctx
  let rsctx := RemoteSpanReferenceFromContext ctx
  if ignoreContext then
    let links := addLinkIfValid [] lsctx "current"
    let links2 := addLinkIfValid links rsctx "remote"
    (SpanReference.empty, false, links2)
  else if lsctx.IsValid then (lsctx, false, [])
  else if rsctx.IsValid then (rsctx, true, [])
  else (SpanReference.empty, false, [])

/-! ### Helper lemmas: the hex codec -/

theorem toHexDigit_val : ∀ d < 16, hexDigitVal (toHexDigit d) = some d := by decide

theorem toHexDigit_lowHex : ∀ d < 16, isLowHex (toHexDigit d) = true := by decide

theorem hexDecode_encodeByte (b : Nat) (hb : b < 256) (rest : List Char) :
    hexDecode (hexEncodeByte b ++ rest) = (hexDecode rest).map (fun bs => b :: bs) := by
  have h1 : b / 16 < 16 := Nat.div_lt_of_lt_mul (by omega)
  have h2 : b % 16 < 16 := Nat.mod_lt _ (by omega)
  have e1 := toHexDigit_val _ h1
  have e2 := toHexDigit_val _ h2
  simp only [hexEncodeByte, List.cons_append, List.nil_append, hexDecode, e1, e2]
  cases hr : hexDecode rest <;> simp [hr, Nat.div_add_mod]

theorem hexDecode_encodeByte_nil (b : Nat) (hb : b < 256) :
    hexDecode (hexEncodeByte b) = some [b] := by
  have := hexDecode_encodeByte b hb []
  rwa [List.append_nil] at this

theorem hexDecode_hexEncode (bs : List Nat) (h : ∀ b ∈ bs, b < 256) :
    hexDecode (hexEncode bs) = some bs := by
  induction bs with
  | nil => rfl
  | cons b tl ih =>
    have hb : b < 256 := h b (by simp)
    rw [hexEncode, hexDecode_encodeByte b hb, ih (fun x hx => h x (by simp [hx]))]
    rfl

theorem hexEncodeByte_length (b : Nat) : (hexEncodeByte b).length = 2 := rfl

theorem hexEncodeByte_lowHex (b : Nat) (hb : b < 256) :
    (hexEncodeByte b).all isLowHex = true := by
  have h1 : b / 16 < 16 := Nat.div_lt_of_lt_mul (by omega)
  have h2 : b % 16 < 16 := Nat.mod_lt _ (by omega)
  simp [hexEncodeByte, toHexDigit_lowHex _ h1, toHexDigit_lowHex _ h2]

theorem hexEncode_length (bs : List Nat) : (hexEncode bs).length = 2 * bs.length := by
  induction bs with
  | nil => rfl
  | cons b tl ih => simp [hexEncode, hexEncodeByte, ih]; omega

theorem hexEncode_lowHex (bs : List Nat) (h : ∀ b ∈ bs, b < 256) :
    (hexEncode bs).all isLowHex = true := by
  induction bs with
  | nil => rfl
  | cons b tl ih =>
    rw [hexEncode, List.all_append]
    have hb := hexEncodeByte_lowHex b (h b (by simp))
    rw [hb, ih (fun x hx => h x (by simp [hx]))]
    rfl

/-! ### Helper lemmas: the grammar match -/

theorem takeFixedHex_append (n : Nat) (xs : List Char)
    (hlen : xs.length = n) (hhex : xs.all isLowHex = true) (ys : List Char) :
    takeFixedHex n (xs ++ ys) = some (xs, ys) := by
  unfold takeFixedHex
  rw [← hlen, List.take_left, List.drop_left]
  exact if_pos ⟨rfl, hhex⟩

theorem takeFixedHex_some (n : Nat) (cs p r : List Char)
    (h : takeFixedHex n cs = some (p, r)) :
    p.length = n ∧ p.all isLowHex = true ∧ cs = p ++ r := by
  unfold takeFixedHex at h
  split at h
  · rename_i hc
    simp only [Option.some.injEq, Prod.mk.injEq] at h
    obtain ⟨hp, hr⟩ := h
    subst hp; subst hr
    exact ⟨hc.1, hc.2, (List.take_append_drop n cs).symm⟩
  · exact absurd h (by simp)

theorem dropDash_some (cs r : List Char) (h : dropDash cs = some r) :
    cs = '-' :: r := by
  match cs with
  | [] => exact absurd h (by simp [dropDash])
  | c :: rest =>
    by_cases hc : c = '-'
    · subst hc
      have hr : some rest = some r := by simpa [dropDash] using h
      simp only [Option.some.injEq] at hr
      rw [hr]
    · exact absurd h (by simp [dropDash, hc])

theorem matchParts_build (v t s f rest : List Char)
    (hv1 : v.length = 2) (hv2 : v.all isLowHex = true)
    (ht1 : t.length = 32) (ht2 : t.all isLowHex = true)
    (hs1 : s.length = 16) (hs2 : s.all isLowHex = true)
    (hf1 : f.length = 2) (hf2 : f.all isLowHex = true)
    (hrest : tailOK rest = true) :
    matchParts (v ++ '-' :: (t ++ '-' :: (s ++ '-' :: (f ++ rest)))) = some (v, t, s, f) := by
  unfold matchParts
  simp [takeFixedHex_append 2 v hv1 hv2, dropDash,
    takeFixedHex_append 32 t ht1 ht2,
    takeFixedHex_append 16 s hs1 hs2,
    takeFixedHex_append 2 f hf1 hf2, hrest]

theorem matchParts_some (cs v t s f : List Char)
    (h : matchParts cs = some (v, t, s, f)) :
    v.length = 2 ∧ v.all isLowHex = true ∧
    t.length = 32 ∧ t.all isLowHex = true ∧
    s.length = 16 ∧ s.all isLowHex = true ∧
    f.length = 2 ∧ f.all isLowHex = true ∧
    ∃ rest, tailOK rest = true ∧
      cs = v ++ '-' :: (t ++ '-' :: (s ++ '-' :: (f ++ rest))) := by
  unfold matchParts at h
  cases h1 : takeFixedHex 2 cs with
  | none => simp only [h1] at h; exact Option.noConfusion h
  | some p1 =>
    obtain ⟨v', cs1⟩ := p1
    simp only [h1] at h
    cases h2 : dropDash cs1 with
    | none => simp only [h2] at h; exact Option.noConfusion h
    | some cs2 =>
      simp only [h2] at h
      cases h3 : takeFixedHex 32 cs2 with
      | none => simp only [h3] at h; exact Option.noConfusion h
      | some p3 =>
        obtain ⟨t', cs3⟩ := p3
        simp only [h3] at h
        cases h4 : dropDash cs3 with
        | none => simp only [h4] at h; exact Option.noConfusion h
        | some cs4 =>
          simp only [h4] at h
          cases h5 : takeFixedHex 16 cs4 with
          | none => simp only [h5] at h; exact Option.noConfusion h
          | some p5 =>
            obtain ⟨s', cs5⟩ := p5
            simp only [h5] at h
            cases h6 : dropDash cs5 with
            | none => simp only [h6] at h; exact Option.noConfusion h
            | some cs6 =>
              simp only [h6] at h
              cases h7 : takeFixedHex 2 cs6 with
              | none => simp only [h7] at h; exact Option.noConfusion h
              | some p7 =>
                obtain ⟨f', cs7⟩ := p7
                simp only [h7] at h
                by_cases h8 : tailOK cs7 = true
                · rw [if_pos h8] at h
                  simp only [Option.some.injEq, Prod.mk.injEq] at h
                  obtain ⟨rfl, rfl, rfl, rfl⟩ := h
                  obtain ⟨l1, a1, e1⟩ := takeFixedHex_some 2 cs v' cs1 h1
                  obtain ⟨l3, a3, e3⟩ := takeFixedHex_some 32 cs2 t' cs3 h3
                  obtain ⟨l5, a5, e5⟩ := takeFixedHex_some 16 cs4 s' cs5 h5
                  obtain ⟨l7, a7, e7⟩ := takeFixedHex_some 2 cs6 f' cs7 h7
                  refine ⟨l1, a1, l3, a3, l5, a5, l7, a7, cs7, h8, ?_⟩
                  rw [e1, dropDash_some cs1 cs2 h2, e3, dropDash_some cs3 cs4 h4,
                    e5, dropDash_some cs5 cs6 h6, e7]
                · rw [if_neg h8] at h
                  exact absurd h (by simp)

theorem mk_cons_ne_empty (c : Char) (l : List Char) : String.mk (c :: l) ≠ "" :=
  fun h => List.cons_ne_nil c l (congrArg String.data h)

theorem matchParts_nil : matchParts [] = none := rfl

/-! ### Helper lemmas: the extraction pipeline -/

theorem empty_not_valid : SpanReference.empty.IsValid = false := rfl

theorem Extract_currentSpan (ctx : Context) (c : Carrier) :
    (TraceContext.Extract ctx c).currentSpan = ctx.currentSpan := by
  unfold TraceContext.Extract
  simp only [ContextWithRemoteSpanReference]
  split <;> split <;> rfl

theorem Extract_tracestate (ctx : Context) (c : Carrier) (h : c.tracestate ≠ "") :
    (TraceContext.Extract ctx c).tracestate = some c.tracestate := by
  unfold TraceContext.Extract
  simp only [ContextWithRemoteSpanReference]
  split <;> simp [if_pos h]

theorem Extract_remote_of_empty (ctx : Context) (c : Carrier)
    (h : TraceContext.extract c = SpanReference.empty) :
    (TraceContext.Extract ctx c).remoteSpan = ctx.remoteSpan := by
  unfold TraceContext.Extract
  rw [h]
  simp only [empty_not_valid]
  split
  · split <;> rfl
  · simp at *

theorem Extract_eq (ctx : Context) (c : Carrier) :
    TraceContext.Extract ctx c =
      if ¬ (TraceContext.extract c).IsValid then
        (if c.tracestate ≠ "" then { ctx with tracestate := some c.tracestate } else ctx)
      else
        ContextWithRemoteSpanReference
          (if c.tracestate ≠ "" then { ctx with tracestate := some c.tracestate } else ctx)
          (TraceContext.extract c) := rfl

theorem Extract_remote_of_invalid (ctx : Context) (c : Carrier)
    (h : (TraceContext.extract c).IsValid = false) :
    (TraceContext.Extract ctx c).remoteSpan = ctx.remoteSpan := by
  rw [Extract_eq]
  simp only [h, Bool.false_eq_true, not_false_eq_true, if_true]
  split <;> rfl

theorem Extract_remote_of_valid (ctx : Context) (c : Carrier)
    (h : (TraceContext.extract c).IsValid = true) :
    (TraceContext.Extract ctx c).remoteSpan = some (TraceContext.extract c) := by
  rw [Extract_eq]
  simp only [h, not_true_eq_false, if_false, ContextWithRemoteSpanReference]

theorem extract_of_match_none (c : Carrier)
    (h : matchParts c.traceparent.data = none) :
    TraceContext.extract c = SpanReference.empty := by
  unfold TraceContext.extract
  split
  · rfl
  · simp only [traceCtxFindSubmatch, h]

theorem mk_length (l : List Char) : (String.mk l).length = l.length := rfl

theorem mk_data (l : List Char) : (String.mk l).data = l := rfl

/-- After a successful grammar match the extraction reduces to the decode
and validity pipeline over the four captured groups; the matched list
always has exactly five entries, so both length guards on it pass. -/
theorem extract_of_match (c : Carrier) (v t s f : List Char)
    (h : matchParts c.traceparent.data = some (v, t, s, f)) :
    TraceContext.extract c =
      (match hexDecode v with
       | none => SpanReference.empty
       | some ver =>
         if ver.getD 0 0 > maxVersion then SpanReference.empty
         else
           match TraceIDFromHex (String.mk t) with
           | none => SpanReference.empty
           | some traceID =>
             match SpanIDFromHex (String.mk s) with
             | none => SpanReference.empty
             | some spanID =>
               match hexDecode f with
               | none => SpanReference.empty
               | some opts =>
                 if opts.length < 1 ∨ (ver.getD 0 0 = 0 ∧ opts.getD 0 0 > 2) then
                   SpanReference.empty
                 else
                   let sc : SpanReference :=
                     { TraceID := traceID, SpanID := spanID,
                       TraceFlags := opts.getD 0 0 &&& FlagsSampled }
                   if ¬ sc.IsValid then SpanReference.empty else sc) := by
  obtain ⟨hv1, hv2, ht1, ht2, hs1, hs2, hf1, hf2, rest, hrest, hdecomp⟩ :=
    matchParts_some _ v t s f h
  have hne : c.traceparent ≠ "" := by
    intro he
    rw [he] at h
    have h0 : matchParts ("".data) = none := rfl
    rw [h0] at h
    exact Option.noConfusion h
  have htake : t.take 32 = t := by rw [← ht1, List.take_length]
  unfold TraceContext.extract
  rw [if_neg hne]
  unfold traceCtxFindSubmatch
  rw [h]
  simp only [mk_length, mk_data, List.getD_cons_zero, List.getD_cons_succ,
    List.length_cons, List.length_nil, htake, hv1, ht1, hs1, hf1]
  norm_num

/-! ### Claim theorems -/

/-- C2: GetSpanReferenceAndLinks returns exactly the four branches of
section 4.2: with ignoreContext it returns an invalid parent, isRemote
false, and links appending — in order — a current-tagged link for a valid
local reference then a remote-tagged link for a valid remote reference;
otherwise a valid local reference wins (not remote, no links), else a
valid remote reference (remote, no links), else the invalid reference
with no links. -/
theorem claim_C2_parent_resolution (ctx : Context) (ignoreContext : Bool) :
    GetSpanReferenceAndLinks ctx ignoreContext =
      if ignoreContext then
        (SpanReference.empty, false,
          (if (SpanFromContextReference ctx).IsValid then
            [{ SpanReference := SpanFromContextReference ctx,
               Attributes := [("ignored-on-demand", "current")] }]
           else []) ++
          (if (RemoteSpanReferenceFromContext ctx).IsValid then
            [{ SpanReference := RemoteSpanReferenceFromContext ctx,
               Attributes := [("ignored-on-demand", "remote")] }]
           else []))
      else if (SpanFromContextReference ctx).IsValid then
        (SpanFromContextReference ctx, false, [])
      else if (RemoteSpanReferenceFromContext ctx).IsValid then
        (RemoteSpanReferenceFromContext ctx, true, [])
      else (SpanReference.empty, false, []) := by
  unfold GetSpanReferenceAndLinks addLinkIfValid
  split_ifs <;> simp_all

/-- C10: every link produced by parent resolution references a valid span
reference and carries exactly one attribute, keyed ignored-on-demand;
with ignoreContext set and both references invalid no link is produced. -/
theorem claim_C10_link_invariant (ctx : Context) (ignoreContext : Bool) :
    (∀ l ∈ (GetSpanReferenceAndLinks ctx ignoreContext).2.2,
        l.SpanReference.IsValid = true ∧
        ∃ val, l.Attributes = [("ignored-on-demand", val)]) ∧
    (ignoreContext = true →
      (SpanFromContextReference ctx).IsValid = false →
      (RemoteSpanReferenceFromContext ctx).IsValid = false →
      (GetSpanReferenceAndLinks ctx ignoreContext).2.2 = []) := by
  constructor
  · intro l hl
    cases ignoreContext with
    | false =>
      by_cases h1 : (SpanFromContextReference ctx).IsValid <;>
        by_cases h2 : (RemoteSpanReferenceFromContext ctx).IsValid <;>
        simp [GetSpanReferenceAndLinks, h1, h2] at hl
    | true =>
      by_cases h1 : (SpanFromContextReference ctx).IsValid <;>
        by_cases h2 : (RemoteSpanReferenceFromContext ctx).IsValid <;>
        simp [GetSpanReferenceAndLinks, addLinkIfValid, h1, h2] at hl
      · rcases hl with rfl | rfl
        · exact ⟨h1, "current", rfl⟩
        · exact ⟨h2, "remote", rfl⟩
      · rcases hl with rfl
        exact ⟨h1, "current", rfl⟩
      · rcases hl with rfl
        exact ⟨h2, "remote", rfl⟩
  · intro hig h1 h2
    unfold GetSpanReferenceAndLinks addLinkIfValid
    simp [hig, h1, h2]

/-- C10 witness: a context with no valid reference and ignoreContext set
yields no links. -/
theorem claim_C10_witness :
    (GetSpanReferenceAndLinks Context.empty true).2.2 = [] :=
  (claim_C10_link_invariant Context.empty true).2 rfl (by decide) (by decide)

/-- C5: Extract is fail-soft: it is a total function; it never touches the
current-span slot, and it either leaves the remote slot unchanged (exactly
when the extracted reference is invalid — every malformed or semantically
invalid traceparent lands here) or sets the remote slot to the valid
extracted reference. -/
theorem claim_C5_fail_soft (ctx : Context) (c : Carrier) :
    (TraceContext.Extract ctx c).currentSpan = ctx.currentSpan ∧
    ((TraceContext.extract c).IsValid = false ∧
        (TraceContext.Extract ctx c).remoteSpan = ctx.remoteSpan ∨
      (TraceContext.extract c).IsValid = true ∧
        (TraceContext.Extract ctx c).remoteSpan = some (TraceContext.extract c)) := by
  refine ⟨Extract_currentSpan ctx c, ?_⟩
  by_cases hv : (TraceContext.extract c).IsValid = true
  · exact Or.inr ⟨hv, Extract_remote_of_valid ctx c hv⟩
  · have hf : (TraceContext.extract c).IsValid = false := by simpa using hv
    exact Or.inl ⟨hf, Extract_remote_of_invalid ctx c hf⟩

/-- C8: a non-empty tracestate carrier field is stored verbatim in the
returned context, independent of the traceparent contents. -/
theorem claim_C8_tracestate (ctx : Context) (c : Carrier) (h : c.tracestate ≠ "") :
    (TraceContext.Extract ctx c).tracestate = some c.tracestate :=
  Extract_tracestate ctx c h

/-- C8 witness: an empty traceparent with a non-empty tracestate still
stores the tracestate. -/
theorem claim_C8_witness :
    (TraceContext.Extract Context.empty
      { traceparent := "", tracestate := "vendor=x" }).tracestate = some "vendor=x" :=
  claim_C8_tracestate Context.empty
    { traceparent := "", tracestate := "vendor=x" } (by decide)

/-- C7: a traceparent whose version group decodes to a value above 254
(only ff is possible for two hex digits) is rejected: the remote span
reference slot is left unchanged, whatever the other groups hold. -/
theorem claim_C7_version_255 (ctx : Context) (c : Carrier)
    (v t s f : List Char) (b : List Nat)
    (hm : matchParts c.traceparent.data = some (v, t, s, f))
    (hd : hexDecode v = some b) (hb : b.getD 0 0 > 254) :
    (TraceContext.Extract ctx c).remoteSpan = ctx.remoteSpan := by
  apply Extract_remote_of_empty
  rw [extract_of_match c v t s f hm, hd]
  simp only [maxVersion]
  rw [if_pos hb]

/-- C7 witness: the version ff header with otherwise-valid fields is
rejected. -/
theorem claim_C7_witness :
    (TraceContext.Extract Context.empty
      { traceparent := "ff-4bf92f3577b34da6a3ce929d0e0e4736-00f067aa0ba902b7-01",
        tracestate := "" }).remoteSpan = none :=
  claim_C7_version_255 Context.empty
    { traceparent := "ff-4bf92f3577b34da6a3ce929d0e0e4736-00f067aa0ba902b7-01",
      tracestate := "" }
    ("ff".data) ("4bf92f3577b34da6a3ce929d0e0e4736".data) ("00f067aa0ba902b7".data)
    ("01".data) [255] (by decide) (by decide) (by decide)

/-- C6: a traceparent whose traceid group is all zeros or whose spanid
group is all zeros is treated as absent: the remote span reference slot is
left unchanged. -/
theorem claim_C6_zero_ids (ctx : Context) (c : Carrier) (v t s f : List Char)
    (hm : matchParts c.traceparent.data = some (v, t, s, f))
    (hz : t.all (fun ch => ch == '0') = true ∨ s.all (fun ch => ch == '0') = true) :
    (TraceContext.Extract ctx c).remoteSpan = ctx.remoteSpan := by
  apply Extract_remote_of_empty
  obtain ⟨hv1, hv2, ht1, ht2, hs1, hs2, hf1, hf2, rest, hrest, hdecomp⟩ :=
    matchParts_some _ v t s f hm
  rw [extract_of_match c v t s f hm]
  cases hdv : hexDecode v with
  | none => simp [hdv]
  | some ver =>
    simp only [hdv]
    by_cases hver : ver.getD 0 0 > maxVersion
    · rw [if_pos hver]
    · rw [if_neg hver]
      rcases hz with hz | hz
      · have ht0 : t = List.replicate 32 '0' := by
          refine List.eq_replicate_iff.mpr ⟨ht1, fun b hb => ?_⟩
          exact eq_of_beq (List.all_eq_true.mp hz b hb)
        have hT : TraceIDFromHex (String.mk t) = some (List.replicate 16 0) := by
          rw [ht0]; rfl
        simp only [hT]
        cases hS : SpanIDFromHex (String.mk s) with
        | none => simp [hS]
        | some sid =>
          simp only [hS]
          cases hF : hexDecode f with
          | none => simp [hF]
          | some opts =>
            simp only [hF]
            by_cases hc : opts.length < 1 ∨ (ver.getD 0 0 = 0 ∧ opts.getD 0 0 > 2)
            · rw [if_pos hc]
            · rw [if_neg hc]
              have hinv : (⟨List.replicate 16 0, sid, opts.getD 0 0 &&& FlagsSampled⟩ : SpanReference).IsValid = false := by
                simp only [SpanReference.IsValid, Bool.and_eq_false_imp]
                intro h
                exact absurd h (by decide)
              simp only [hinv, Bool.false_eq_true, not_false_eq_true, if_true]
      · cases hT : TraceIDFromHex (String.mk t) with
        | none => simp [hT]
        | some tid =>
          simp only [hT]
          have hs0 : s = List.replicate 16 '0' := by
            refine List.eq_replicate_iff.mpr ⟨hs1, fun b hb => ?_⟩
            exact eq_of_beq (List.all_eq_true.mp hz b hb)
          have hS : SpanIDFromHex (String.mk s) = some (List.replicate 8 0) := by
            rw [hs0]; rfl
          simp only [hS]
          cases hF : hexDecode f with
          | none => simp [hF]
          | some opts =>
            simp only [hF]
            by_cases hc : opts.length < 1 ∨ (ver.getD 0 0 = 0 ∧ opts.getD 0 0 > 2)
            · rw [if_pos hc]
            · rw [if_neg hc]
              have hinv : (⟨tid, List.replicate 8 0, opts.getD 0 0 &&& FlagsSampled⟩ : SpanReference).IsValid = false := by
                simp only [SpanReference.IsValid, Bool.and_eq_false_imp]
                intro h
                decide
              simp only [hinv, Bool.false_eq_true, not_false_eq_true, if_true]

/-- C6 witness: the all-zero-traceid header of the spec extracts to
absent. -/
theorem claim_C6_witness :
    (TraceContext.Extract Context.empty
      { traceparent := "00-00000000000000000000000000000000-00f067aa0ba902b7-01",
        tracestate := "" }).remoteSpan = none :=
  claim_C6_zero_ids Context.empty
    { traceparent := "00-00000000000000000000000000000000-00f067aa0ba902b7-01",
      tracestate := "" }
    ("00".data) ("00000000000000000000000000000000".data) ("00f067aa0ba902b7".data)
    ("01".data) (by decide) (Or.inl (by decide))

/-- C4 counterexample: the flags byte 02 has a bit other than the sampled
bit set, yet the version-0 header is NOT rejected — Extract sets a remote
span reference (with the flags masked to 00), refuting the claim that any
non-sampled bit forces rejection. -/
theorem claim_C4_counterexample :
    (TraceContext.Extract Context.empty
      { traceparent := "00-4bf92f3577b34da6a3ce929d0e0e4736-00f067aa0ba902b7-02",
        tracestate := "" }).remoteSpan ≠ none := by decide

/-- C4 amended: for a version-00 header with well-formed groups, Extract
rejects (leaves the remote slot unchanged) whenever the decoded flags byte
value exceeds 2, i.e. whenever any bit above bit 1 is set; a flags byte of
02 is instead accepted and masked to the sampled bit. -/
theorem claim_C4_flags_over_two (ctx : Context) (ts : String)
    (t s f : List Char) (b : Nat)
    (ht1 : t.length = 32) (ht2 : t.all isLowHex = true)
    (hs1 : s.length = 16) (hs2 : s.all isLowHex = true)
    (hf1 : f.length = 2) (hf2 : f.all isLowHex = true)
    (hf : hexDecode f = some [b]) (hb : b > 2) :
    (TraceContext.Extract ctx
      { traceparent := String.mk ('0' :: '0' :: '-' :: (t ++ '-' :: (s ++ '-' :: f))),
        tracestate := ts }).remoteSpan = ctx.remoteSpan := by
  apply Extract_remote_of_empty
  have hm : matchParts
      (Carrier.traceparent
        { traceparent := String.mk ('0' :: '0' :: '-' :: (t ++ '-' :: (s ++ '-' :: f))),
          tracestate := ts }).data = some (['0', '0'], t, s, f) := by
    have hb2 := matchParts_build ['0', '0'] t s f []
      (by decide) (by decide) ht1 ht2 hs1 hs2 hf1 hf2 (by decide)
    rw [List.append_nil] at hb2
    exact hb2
  rw [extract_of_match _ _ _ _ _ hm]
  have hv : hexDecode ['0', '0'] = some [0] := rfl
  simp only [hv]
  rw [if_neg (by decide)]
  cases hT : TraceIDFromHex (String.mk t) with
  | none => simp [hT]
  | some tid =>
    simp only [hT]
    cases hS : SpanIDFromHex (String.mk s) with
    | none => simp [hS]
    | some sid =>
      simp only [hS, hf]
      rw [if_pos (Or.inr ⟨rfl, hb⟩)]

/-- C4 amended witness: flags byte ff (255 exceeds 2) is rejected. -/
theorem claim_C4_witness :
    (TraceContext.Extract Context.empty
      { traceparent := "00-4bf92f3577b34da6a3ce929d0e0e4736-00f067aa0ba902b7-ff",
        tracestate := "" }).remoteSpan = none :=
  claim_C4_flags_over_two Context.empty ""
    ("4bf92f3577b34da6a3ce929d0e0e4736".data) ("00f067aa0ba902b7".data) ("ff".data) 255
    (by decide) (by decide) (by decide) (by decide) (by decide) (by decide)
    (by decide) (by decide)

/-- C3 (the code accepts what the claim rejects): a version-00 header with
a trailing dash-segment is accepted and a remote span reference is set.
The guard at trace_context.go line 113 compares the match-list length with
5, but the trailing group of the regular expression is non-capturing, so
FindStringSubmatch always yields exactly five entries and the guard never
fires. -/
theorem claim_C3_trailing_accepted :
    (TraceContext.Extract Context.empty
      { traceparent := "00-4bf92f3577b34da6a3ce929d0e0e4736-00f067aa0ba902b7-01-extra",
        tracestate := "" }).remoteSpan =
    some { TraceID := [75, 249, 47, 53, 119, 179, 77, 166, 163, 206, 146, 157, 14, 14, 71, 54],
           SpanID := [0, 240, 103, 170, 11, 169, 2, 183],
           TraceFlags := 1 } := by decide

/-- C9: a traceparent containing an uppercase hex letter among its first
55 characters — the region the grammar reserves for the four groups and
their dash separators — fails the grammar match (the character classes
are lowercase-only), and Extract leaves the remote slot unchanged. -/
theorem claim_C9_lowercase_only (ctx : Context) (c : Carrier) (ch : Char)
    (hmem : ch ∈ c.traceparent.data.take 55)
    (hup : ch ∈ ['A', 'B', 'C', 'D', 'E', 'F']) :
    matchParts c.traceparent.data = none ∧
    (TraceContext.Extract ctx c).remoteSpan = ctx.remoteSpan := by
  have hnone : matchParts c.traceparent.data = none := by
    cases hm : matchParts c.traceparent.data with
    | none => rfl
    | some quad =>
      exfalso
      obtain ⟨v, t, s, f⟩ := quad
      obtain ⟨hv1, hv2, ht1, ht2, hs1, hs2, hf1, hf2, rest, hrest, hdecomp⟩ :=
        matchParts_some _ v t s f hm
      have hP : c.traceparent.data = (v ++ '-' :: (t ++ '-' :: (s ++ '-' :: f))) ++ rest := by
        rw [hdecomp]
        simp [List.append_assoc]
      have hPlen : (v ++ '-' :: (t ++ '-' :: (s ++ '-' :: f))).length = 55 := by
        simp [hv1, ht1, hs1, hf1]
      have htk : c.traceparent.data.take 55 = v ++ '-' :: (t ++ '-' :: (s ++ '-' :: f)) := by
        rw [hP, ← hPlen, List.take_left]
      rw [htk] at hmem
      have hch : isLowHex ch = true ∨ ch = '-' := by
        rcases List.mem_append.mp hmem with h | h
        · exact Or.inl (List.all_eq_true.mp hv2 ch h)
        · rcases List.mem_cons.mp h with h | h
          · exact Or.inr h
          · rcases List.mem_append.mp h with h | h
            · exact Or.inl (List.all_eq_true.mp ht2 ch h)
            · rcases List.mem_cons.mp h with h | h
              · exact Or.inr h
              · rcases List.mem_append.mp h with h | h
                · exact Or.inl (List.all_eq_true.mp hs2 ch h)
                · rcases List.mem_cons.mp h with h | h
                  · exact Or.inr h
                  · exact Or.inl (List.all_eq_true.mp hf2 ch h)
      fin_cases hup <;> rcases hch with h | h <;> exact absurd h (by decide)
  exact ⟨hnone, Extract_remote_of_empty ctx c (extract_of_match_none c hnone)⟩

/-- C9 witness: a header with uppercase hex in the traceid group fails the
match and extracts to absent. -/
theorem claim_C9_witness :
    matchParts ("00-4BF92F3577B34DA6A3CE929D0E0E4736-00f067aa0ba902b7-01".data) = none ∧
    (TraceContext.Extract Context.empty
      { traceparent := "00-4BF92F3577B34DA6A3CE929D0E0E4736-00f067aa0ba902b7-01",
        tracestate := "" }).remoteSpan = none :=
  claim_C9_lowercase_only Context.empty
    { traceparent := "00-4BF92F3577B34DA6A3CE929D0E0E4736-00f067aa0ba902b7-01",
      tracestate := "" }
    'B' (by decide) (by decide)

/-- C1: round-trip through the wire propagator. Injecting a context whose
current span reference is a valid, well-formed reference r and extracting
the resulting carrier yields a context whose REMOTE span reference has
r's TraceID and SpanID and r's flags masked to the sampled bit, while the
extracting context's current-span slot is untouched. -/
theorem claim_C1_roundtrip (ctx2 : Context) (r : SpanReference)
    (hT : r.TraceID.length = 16) (hTb : ∀ b ∈ r.TraceID, b < 256)
    (hS : r.SpanID.length = 8) (hSb : ∀ b ∈ r.SpanID, b < 256)
    (hval : r.IsValid = true) :
    (TraceContext.Extract ctx2
        (TraceContext.Inject
          { currentSpan := some r, remoteSpan := none, tracestate := none }
          { traceparent := "", tracestate := "" })).remoteSpan =
      some { TraceID := r.TraceID, SpanID := r.SpanID,
              TraceFlags := r.TraceFlags &&& FlagsSampled } ∧
    (TraceContext.Extract ctx2
        (TraceContext.Inject
          { currentSpan := some r, remoteSpan := none, tracestate := none }
          { traceparent := "", tracestate := "" })).currentSpan = ctx2.currentSpan := by
  have hflag : r.TraceFlags &&& FlagsSampled < 256 :=
    lt_of_le_of_lt Nat.and_le_right (by decide)
  have hinj : TraceContext.Inject
      { currentSpan := some r, remoteSpan := none, tracestate := none }
      { traceparent := "", tracestate := "" } =
      { traceparent := String.mk
          (hexEncodeByte supportedVersion ++ '-' :: (hexEncode r.TraceID ++
            '-' :: (hexEncode r.SpanID ++
              '-' :: hexEncodeByte (r.TraceFlags &&& FlagsSampled)))),
        tracestate := "" } := by
    unfold TraceContext.Inject
    simp [SpanFromContextReference, hval]
  rw [hinj]
  have hm : matchParts
      (Carrier.traceparent
        { traceparent := String.mk
            (hexEncodeByte supportedVersion ++ '-' :: (hexEncode r.TraceID ++
              '-' :: (hexEncode r.SpanID ++
                '-' :: hexEncodeByte (r.TraceFlags &&& FlagsSampled)))),
          tracestate := "" }).data =
      some (hexEncodeByte supportedVersion, hexEncode r.TraceID, hexEncode r.SpanID,
        hexEncodeByte (r.TraceFlags &&& FlagsSampled)) := by
    have hb := matchParts_build (hexEncodeByte supportedVersion) (hexEncode r.TraceID)
      (hexEncode r.SpanID) (hexEncodeByte (r.TraceFlags &&& FlagsSampled)) []
      (hexEncodeByte_length _) (hexEncodeByte_lowHex _ (by decide))
      (by rw [hexEncode_length, hT])
      (hexEncode_lowHex _ hTb)
      (by rw [hexEncode_length, hS])
      (hexEncode_lowHex _ hSb)
      (hexEncodeByte_length _) (hexEncodeByte_lowHex _ hflag)
      (by decide)
    rw [List.append_nil] at hb
    exact hb
  have e1 : hexDecode (hexEncodeByte supportedVersion) = some [supportedVersion] :=
    hexDecode_encodeByte_nil supportedVersion (by decide)
  have e2 : TraceIDFromHex (String.mk (hexEncode r.TraceID)) = some r.TraceID := by
    simp [TraceIDFromHex, mk_length, mk_data, hexEncode_length, hT,
      hexDecode_hexEncode _ hTb]
  have e3 : SpanIDFromHex (String.mk (hexEncode r.SpanID)) = some r.SpanID := by
    simp [SpanIDFromHex, mk_length, mk_data, hexEncode_length, hS,
      hexDecode_hexEncode _ hSb]
  have e4 : hexDecode (hexEncodeByte (r.TraceFlags &&& FlagsSampled)) =
      some [r.TraceFlags &&& FlagsSampled] :=
    hexDecode_encodeByte_nil _ hflag
  have hx : TraceContext.extract
      { traceparent := String.mk
          (hexEncodeByte supportedVersion ++ '-' :: (hexEncode r.TraceID ++
            '-' :: (hexEncode r.SpanID ++
              '-' :: hexEncodeByte (r.TraceFlags &&& FlagsSampled)))),
        tracestate := "" } =
      { TraceID := r.TraceID, SpanID := r.SpanID,
        TraceFlags := r.TraceFlags &&& FlagsSampled } := by
    rw [extract_of_match _ _ _ _ _ hm]
    simp only [e1, e2, e3, e4]
    rw [if_neg (by decide)]
    have hle : r.TraceFlags &&& FlagsSampled ≤ 1 := Nat.and_le_right
    have hcnot : ¬ ([r.TraceFlags &&& FlagsSampled].length < 1 ∨
        ([supportedVersion].getD 0 0 = 0 ∧ [r.TraceFlags &&& FlagsSampled].getD 0 0 > 2)) := by
      rintro (h | ⟨h0, h2⟩)
      · simp at h
      · rw [List.getD_cons_zero] at h2
        omega
    rw [if_neg hcnot]
    have hv2val : (⟨r.TraceID, r.SpanID,
        [r.TraceFlags &&& FlagsSampled].getD 0 0 &&& FlagsSampled⟩ : SpanReference).IsValid = true := hval
    simp only [hv2val, not_true_eq_false, if_false]
    simp only [List.getD_cons_zero, Nat.land_assoc,
      show FlagsSampled &&& FlagsSampled = FlagsSampled from by decide]
  have hvalid : (TraceContext.extract
      { traceparent := String.mk
          (hexEncodeByte supportedVersion ++ '-' :: (hexEncode r.TraceID ++
            '-' :: (hexEncode r.SpanID ++
              '-' :: hexEncodeByte (r.TraceFlags &&& FlagsSampled)))),
        tracestate := "" }).IsValid = true := by
    rw [hx]; exact hval
  refine ⟨?_, Extract_currentSpan ctx2 _⟩
  rw [Extract_remote_of_valid ctx2 _ hvalid, hx]

/-- C1 witness: the spec's example reference (flags 01) round-trips. -/
theorem claim_C1_witness :
    (TraceContext.Extract Context.empty
        (TraceContext.Inject
          { currentSpan := some
              { TraceID := [75, 249, 47, 53, 119, 179, 77, 166, 163, 206, 146, 157, 14, 14, 71, 54],
                SpanID := [0, 240, 103, 170, 11, 169, 2, 183], TraceFlags := 1 },
            remoteSpan := none, tracestate := none }
          { traceparent := "", tracestate := "" })).remoteSpan =
      some { TraceID := [75, 249, 47, 53, 119, 179, 77, 166, 163, 206, 146, 157, 14, 14, 71, 54],
              SpanID := [0, 240, 103, 170, 11, 169, 2, 183], TraceFlags := 1 &&& FlagsSampled } ∧
    (TraceContext.Extract Context.empty
        (TraceContext.Inject
          { currentSpan := some
              { TraceID := [75, 249, 47, 53, 119, 179, 77, 166, 163, 206, 146, 157, 14, 14, 71, 54],
                SpanID := [0, 240, 103, 170, 11, 169, 2, 183], TraceFlags := 1 },
            remoteSpan := none, tracestate := none }
          { traceparent := "", tracestate := "" })).currentSpan = Context.empty.currentSpan :=
  claim_C1_roundtrip Context.empty
    { TraceID := [75, 249, 47, 53, 119, 179, 77, 166, 163, 206, 146, 157, 14, 14, 71, 54],
      SpanID := [0, 240, 103, 170, 11, 169, 2, 183], TraceFlags := 1 }
    (by decide) (by decide) (by decide) (by decide) (by decide)
